import Mathlib

/-!
Verification development for the InfluxDB-Migrator repository.

The TypeScript sources are shallowly embedded as pure Lean functions:

* `src/src/migration/influx3x-client.ts` (first, HTTP/line-protocol
  implementation of `Influx3xClient`): `escapeTagValue`,
  `escapeFieldValue`, the per-record serialization loop of `writeBatch`,
  and its transport / per-line-retry outcome.
* `Migrator.migrate` / `Migrator.resume` (migration orchestrator).
* `src/src/migration/checkpoint.ts` (`CheckpointManager.save` / `load`).
* `src/dist/migration/verifier.js` (`Verifier.verify`,
  `verifyRecordCount`, `verifyTimeRange`).

Modeling conventions: JavaScript numbers appearing in verifier
arithmetic are modeled as exact rationals; ISO-8601 timestamp strings
are modeled by their epoch-millisecond instants (`Int`/`Nat`), with the
empty / absent string modeled as `none` (matching JS truthiness checks);
network transports are modeled by boolean oracles saying whether the
destination accepts a request; local `console` logging is ignored.
-/

namespace InfluxMigrator

/-- A primitive JavaScript value flowing through the migration records:
a string, a number (represented by its canonical `String(n)` rendering),
or a boolean.  `undefined`/`null` are modeled by `Option.none` at the
use sites. -/
inductive JsVal where
  | vstr (s : String)
  | vnum (render : String)
  | vbool (b : Bool)
deriving DecidableEq, Repr

/-- Modeled JS builtin `String(v)` for the primitive values above. -/
def jsToString : JsVal → String
  | JsVal.vstr s => s
  | JsVal.vnum r => r
  | JsVal.vbool b => if b then "true" else "false"

/-- Whitespace for the modeled JS `String.prototype.trim`. -/
def isJsSpace (c : Char) : Bool :=
  c = ' ' || c = '\t' || c = '\n' || c = '\r'

/-- Modeled JS builtin `s.trim()`: strip leading and trailing
whitespace. -/
def jsTrim (s : String) : String :=
  String.mk (((s.data.dropWhile isJsSpace).reverse.dropWhile isJsSpace).reverse)

/-- Modeled from the JS builtins: `String(parseFloat(s))` on an already
trimmed input `s`, returning `none` when `parseFloat` yields `NaN`.
Modeled for the plain decimal literals this pipeline produces (optional
sign, digits, optional fraction, longest valid prefix); exponent forms
and `Infinity` are outside the modeled fragment. -/
def jsParseFloatRender (s : String) : Option String :=
  let cs := s.data
  let sign : Bool :=
    match cs with
    | '-' :: _ => true
    | _ => false
  let rest : List Char :=
    match cs with
    | '-' :: r => r
    | '+' :: r => r
    | r => r
  let intPart := rest.takeWhile (fun c => c.isDigit)
  let afterInt := rest.drop intPart.length
  let fracPart : List Char :=
    match afterInt with
    | '.' :: r => r.takeWhile (fun c => c.isDigit)
    | _ => []
  if intPart.isEmpty && fracPart.isEmpty then none
  else
    let intDigits := intPart.dropWhile (fun c => c = '0')
    let intDigits := if intDigits.isEmpty then ['0'] else intDigits
    let fracDigits := (fracPart.reverse.dropWhile (fun c => c = '0')).reverse
    if intDigits = ['0'] && fracDigits.isEmpty then some "0"
    else
      let core := String.mk intDigits ++
        (if fracDigits.isEmpty then "" else "." ++ String.mk fracDigits)
      some ((if sign then "-" else "") ++ core)

/-- The string→number coercion of `writeBatch` (influx3x-client.ts,
first implementation, lines 62-75): trim, skip when empty after the
trim, parse as a number when possible, otherwise keep the trimmed
string.  Non-string values pass through unchanged. -/
def coerceValue : JsVal → Option JsVal
  | JsVal.vstr s =>
    let t := jsTrim s
    if t = "" then none
    else
      match jsParseFloatRender t with
      | some r => some (JsVal.vnum r)
      | none => some (JsVal.vstr t)
  | v => some v

/-- Helper for the global regex replace `value.replace(/[,= ]/g, '\\$&')`:
prefix every character of `special` with a backslash. -/
def escapeChars (special : List Char) (cs : List Char) : List Char :=
  match cs with
  | [] => []
  | c :: rest =>
    if c ∈ special then '\\' :: c :: escapeChars special rest
    else c :: escapeChars special rest

/-- `Influx3xClient.escapeTagValue` (influx3x-client.ts lines 27-31):
escape commas, equals signs and spaces with a backslash. -/
def escapeTagValue (s : String) : String :=
  String.mk (escapeChars [',', '=', ' '] s.data)

/-- Helper for `value.replace(/"/g, '\\"')`: backslash-escape double
quotes. -/
def escapeQuotes (cs : List Char) : List Char :=
  match cs with
  | [] => []
  | c :: rest =>
    if c = '"' then '\\' :: '"' :: escapeQuotes rest
    else c :: escapeQuotes rest

/-- `Influx3xClient.escapeFieldValue` (influx3x-client.ts lines 33-39):
string fields are quoted with internal quotes escaped; any other value
is rendered by `String(value)`. -/
def escapeFieldValue : JsVal → String
  | JsVal.vstr s => "\"" ++ String.mk (escapeQuotes s.data) ++ "\""
  | v => jsToString v

/-- One source record as produced by the 2.x flux query: the system
columns `_measurement`, `_field`, `_value`, `_time` plus the remaining
keys (`others`, in `Object.keys` order).  `none` models an absent
(`undefined`) entry; `time` is the epoch-millisecond instant
`new Date(record._time).getTime()`, with `0` modeling a falsy `_time`. -/
structure SrcRecord where
  measurement : Option String
  field : Option String
  value : Option JsVal
  time : Int
  others : List (String × Option JsVal)
deriving DecidableEq, Repr

/-- The key filter of the tag-building loop: skip keys starting with an
underscore and the `result` / `table` columns. -/
def isSystemKey (k : String) : Bool :=
  (match k.data with
   | '_' :: _ => true
   | _ => false) ||
    k == "result" || k == "table"

/-- One iteration of the tag-building `forEach` (influx3x-client.ts
lines 79-90): skip system keys and null/undefined values, trim the
`String(value)` rendering, skip when empty, otherwise emit
`key=escapeTagValue(strValue)`. -/
def tagEntry (kv : String × Option JsVal) : Option String :=
  if isSystemKey kv.1 then none
  else
    match kv.2 with
    | none => none
    | some v =>
      let s := jsTrim (jsToString v)
      if s = "" then none else some (kv.1 ++ "=" ++ escapeTagValue s)

/-- The accumulated `tags` array of the tag-building loop. -/
def buildTags (others : List (String × Option JsVal)) : List String :=
  others.foldl
    (fun acc kv =>
      match tagEntry kv with
      | some e => acc ++ [e]
      | none => acc)
    []

/-- One iteration of the serialization loop of `writeBatch`
(influx3x-client.ts lines 45-106): `none` when the record is skipped
(missing/empty measurement, missing field name or value, empty string
value before or after trimming), otherwise the emitted line-protocol
line `measurement[,k=v,...] field=value timestamp` with the timestamp
in nanoseconds (`getTime() * 1000000`).  The measurement name is
interpolated verbatim. -/
def serializeRecord (r : SrcRecord) : Option String :=
  match r.measurement with
  | none => none
  | some m =>
    if m = "" then none
    else
      match r.field with
      | none => none
      | some f =>
        if f = "" then none
        else
          match r.value with
          | none => none
          | some v =>
            if v = JsVal.vstr "" then none
            else
              match coerceValue v with
              | none => none
              | some v' =>
                let entries := buildTags r.others
                let tagSet :=
                  if entries.isEmpty then ""
                  else "," ++ String.intercalate "," entries
                let fields := f ++ "=" ++ escapeFieldValue v'
                some (m ++ tagSet ++ " " ++ fields ++ " " ++
                  toString (r.time * 1000000))

/-- The whole serialization loop: the emitted lines in order, together
with the `skippedCount` of records that were dropped. -/
def serializeBatch : List SrcRecord → List String × Nat
  | [] => ([], 0)
  | r :: rest =>
    let acc := serializeBatch rest
    match serializeRecord r with
    | some l => (l :: acc.1, acc.2)
    | none => (acc.1, acc.2 + 1)

/-- Outcome of one `writeBatch` call: either it returns normally (with
the number of points the destination accepted and the number skipped
during serialization) or it throws. -/
inductive WriteResult where
  | ok (accepted skipped : Nat)
  | err (msg : String)
deriving DecidableEq, Repr

/-- `Influx3xClient.writeBatch` (influx3x-client.ts lines 41-219)
after serialization: when no line survives serialization the function
logs and returns (no error); when the whole-batch HTTP request succeeds
(`batchOk`) every line is accepted; otherwise each line is retried
individually (`lineOk` says which lines the destination accepts) and
the call throws only when every individual write fails.  The function
returns `void` in the source; `WriteResult.ok` records the counts the
code computes internally. -/
def writeBatch (batchOk : Bool) (lineOk : String → Bool)
    (records : List SrcRecord) : WriteResult :=
  let sb := serializeBatch records
  let lines := sb.1
  let skipped := sb.2
  if lines.isEmpty then WriteResult.ok 0 skipped
  else if batchOk then WriteResult.ok lines.length skipped
  else
    let succ := (lines.filter lineOk).length
    if succ = 0 then
      WriteResult.err
        ("Write failed: All " ++ toString lines.length ++
          " lines failed to write")
    else WriteResult.ok succ skipped

/-! ## Migration orchestrator (`Migrator`, unnamed migrator source) -/

/-- Migration status values of `MigrationProgress.status`. -/
inductive MigStatus where
  | running
  | completed
  | failed
  | paused
deriving DecidableEq, Repr

/-- The in-memory `MigrationProgress` of the `Migrator` class.
`lastTimestamp` holds the `_time` instant of the last point of the most
recently completed batch (`none` while unset); `startTime` (a wall-clock
`Date`) is omitted since no modeled path depends on it. -/
structure MigrationProgress where
  migrationId : String
  totalRecords : Nat
  migratedRecords : Nat
  currentBatch : Nat
  lastTimestamp : Option Int
  status : MigStatus
  error : Option String
deriving DecidableEq, Repr

/-- The `lastRecord && lastRecord._time` update of `Migrator.migrate`:
the time of the batch's last record when truthy. -/
def lastBatchTime (batch : List SrcRecord) : Option Int :=
  match batch.getLast? with
  | none => none
  | some r => if r.time ≠ 0 then some r.time else none

/-- Progress update performed for one non-empty, successfully written
batch in `Migrator.migrate`: `currentBatch` becomes the new batch
number, `migratedRecords` grows by `batch.length` (the statement
`this.progress.migratedRecords += batch.length`), and `lastTimestamp`
advances to the batch's last record time when truthy. -/
def stepProgress (p : MigrationProgress) (b : List SrcRecord) (bn : Nat) :
    MigrationProgress :=
  { p with
    currentBatch := bn + 1
    migratedRecords := p.migratedRecords + b.length
    lastTimestamp :=
      match lastBatchTime b with
      | some t => some t
      | none => p.lastTimestamp }

/-- The batch loop of `Migrator.migrate` (migrator source lines
250-293 together with the surrounding try/catch): empty batches are
skipped without counting; for a non-empty batch the batch number is
advanced, `writeBatch` is called, a thrown write error sets status
`failed` and stops the run, and otherwise progress is stepped; on
exhaustion the status becomes `completed`.  `batchOk bn` tells whether
the whole-batch HTTP request for batch number `bn` succeeds and
`lineOk` which individual lines the destination accepts.  Periodic
checkpoint persistence is a side effect that does not change the
progress fields and is modeled separately via `saveCheckpoint`. -/
def migrateLoop (batchOk : Nat → Bool) (lineOk : String → Bool) :
    List (List SrcRecord) → MigrationProgress → Nat → MigrationProgress
  | [], p, _ => { p with status := MigStatus.completed }
  | b :: rest, p, bn =>
    if b.isEmpty then migrateLoop batchOk lineOk rest p bn
    else
      let p1 := { p with currentBatch := bn + 1 }
      match writeBatch (batchOk (bn + 1)) lineOk b with
      | WriteResult.err m =>
        { p1 with status := MigStatus.failed, error := some m }
      | WriteResult.ok _ _ =>
        migrateLoop batchOk lineOk rest (stepProgress p b bn) (bn + 1)

/-- `Migrator.migrate`: set status `running`, then run the batch loop
from batch number 0. -/
def migrate (batchOk : Nat → Bool) (lineOk : String → Bool)
    (batches : List (List SrcRecord)) (p : MigrationProgress) :
    MigrationProgress :=
  migrateLoop batchOk lineOk batches { p with status := MigStatus.running } 0

/-! ## Checkpoint store (`CheckpointManager`, checkpoint.ts) -/

/-- The `sourceConfig` identity block of a checkpoint. -/
structure SourceConfig where
  host : String
  org : String
  bucket : String
deriving DecidableEq, Repr

/-- The `destConfig` identity block of a checkpoint. -/
structure DestConfig where
  host : String
  database : String
deriving DecidableEq, Repr

/-- The optional `metadata.timeRange` block of a checkpoint. -/
structure CkTimeRange where
  earliest : String
  latest : String
deriving DecidableEq, Repr

/-- The optional `metadata` block of a checkpoint. -/
structure CkMetadata where
  measurements : List String
  timeRange : Option CkTimeRange
deriving DecidableEq, Repr

/-- The `CheckpointData` record of checkpoint.ts.  The ISO-8601 strings
`startTime` and `lastUpdateTime` are modeled by their epoch-millisecond
instants (the ISO rendering of instants is order-isomorphic to them);
`lastTimestamp` is `none` when the source stores the empty string. -/
structure CheckpointData where
  migrationId : String
  lastTimestamp : Option Int
  migratedRecords : Nat
  totalRecords : Nat
  currentBatch : Nat
  startTime : Nat
  lastUpdateTime : Nat
  sourceConfig : SourceConfig
  destConfig : DestConfig
  metadata : Option CkMetadata
deriving DecidableEq, Repr

/-- Contents of one checkpoint file as `load` observes them: the
pretty-printed JSON of a record (for such records `JSON.parse` inverts
`JSON.stringify`, so the parsed record is carried directly), malformed
text that `JSON.parse` rejects, or a file `readFile` fails on. -/
inductive FileContent where
  | json (d : CheckpointData)
  | malformed (raw : String)
  | unreadable
deriving DecidableEq, Repr

/-- The checkpoint directory: an association list from file path to
content, newest entry first (a later `save` shadows an earlier one). -/
def FileStore : Type := List (String × FileContent)

/-- `CheckpointManager.getCheckpointPath`: `dir/migrationId.json`. -/
def checkpointPath (dir id : String) : String :=
  dir ++ "/" ++ id ++ ".json"

/-- `CheckpointManager.save` (checkpoint.ts lines 59-86): overwrite the
argument's `lastUpdateTime` in place with the current time, then write
the record's JSON at the checkpoint path.  Returns the updated store
and the (mutated) argument record.  The I/O-failure branch rethrows and
is not modeled. -/
def saveCheckpoint (store : FileStore) (dir : String) (d : CheckpointData)
    (now : Nat) : FileStore × CheckpointData :=
  let d' := { d with lastUpdateTime := now }
  ((checkpointPath dir d.migrationId, FileContent.json d') :: store, d')

/-- `CheckpointManager.load` (checkpoint.ts lines 88-120): `none` when
the file does not exist; the parsed record when it is well-formed JSON;
and — because both `readFile` and `JSON.parse` failures are caught and
turned into `return null` — `none` again when the file is unreadable or
malformed. -/
def loadCheckpoint (store : FileStore) (dir id : String) :
    Option CheckpointData :=
  match List.lookup (checkpointPath dir id) store with
  | none => none
  | some (FileContent.json d) => some d
  | some (FileContent.malformed _) => none
  | some FileContent.unreadable => none

/-! ## Resume (`Migrator.resume`, migrator source lines 356-396) -/

/-- Outcome of the checkpoint-validation prefix of `Migrator.resume`,
everything before the final `migrate(checkpoint.lastTimestamp)` call:
either no checkpoint was found, or the identity comparison failed, or
the run proceeds with the restored progress and the checkpoint's
`lastTimestamp` as the new read start bound. -/
inductive ResumeOutcome where
  | noCheckpoint (msg : String)
  | configMismatch (msg : String)
  | proceed (restored : MigrationProgress) (startFrom : Option Int)
deriving DecidableEq, Repr

/-- Whether a resume outcome is the fatal configuration-mismatch
error. -/
def ResumeOutcome.isMismatch : ResumeOutcome → Bool
  | ResumeOutcome.configMismatch _ => true
  | _ => false

/-- `Migrator.resume` up to the final `migrate` call: load the
checkpoint, fail when absent, compare source host, source bucket,
destination host and destination database against the current
configuration (the comparison in the source covers exactly these four
fields), fail on mismatch, otherwise restore progress and hand the
checkpoint's `lastTimestamp` to `migrate`. -/
def resumeValidate (cp : CheckpointData) (src : SourceConfig)
    (dst : DestConfig) : ResumeOutcome :=
  if cp.sourceConfig.host ≠ src.host ∨
      cp.sourceConfig.bucket ≠ src.bucket ∨
      cp.destConfig.host ≠ dst.host ∨
      cp.destConfig.database ≠ dst.database then
    ResumeOutcome.configMismatch
      "Checkpoint source/destination does not match current configuration"
  else
    ResumeOutcome.proceed
      { migrationId := cp.migrationId
        totalRecords := cp.totalRecords
        migratedRecords := cp.migratedRecords
        currentBatch := cp.currentBatch
        lastTimestamp := cp.lastTimestamp
        status := MigStatus.running
        error := none }
      cp.lastTimestamp

/-- The load-then-validate prefix of `Migrator.resume`. -/
def resumeCheck (store : FileStore) (dir id : String)
    (src : SourceConfig) (dst : DestConfig) : ResumeOutcome :=
  match loadCheckpoint store dir id with
  | none =>
    ResumeOutcome.noCheckpoint
      ("No checkpoint found for migration ID: " ++ id)
  | some cp => resumeValidate cp src dst

/-! ## Verifier (`Verifier`, dist/migration/verifier.js) -/

/-- The `checks.recordCount` block of a verification result.  The
JavaScript floating-point `percentDifference` is modeled as an exact
rational. -/
structure RecordCountCheck where
  passed : Bool
  source : Nat
  destination : Nat
  difference : Nat
  percentDifference : ℚ
deriving DecidableEq, Repr

/-- A `{earliest, latest}` time range as the verifier observes it:
each endpoint is an epoch-millisecond instant, `none` when the store
reported the (falsy) empty string. -/
structure TimeRangeEndpoints where
  earliest : Option Int
  latest : Option Int
deriving DecidableEq, Repr

/-- The `checks.timeRange` block of a verification result. -/
structure TimeRangeCheck where
  passed : Bool
  source : TimeRangeEndpoints
  destination : TimeRangeEndpoints
  message : String
deriving DecidableEq, Repr

/-- The `VerificationResult` built by `Verifier.verify` (the
`timestamp` field is omitted). -/
structure VerificationResult where
  passed : Bool
  recordCount : RecordCountCheck
  timeRange : TimeRangeCheck
  warnings : List String
  errors : List String
deriving DecidableEq, Repr

/-- The initial result object of `Verifier.verify` (verifier.js lines
15-35). -/
def initResult : VerificationResult :=
  { passed := true,
    recordCount :=
      { passed := false, source := 0, destination := 0, difference := 0,
        percentDifference := 0 },
    timeRange :=
      { passed := false,
        source := { earliest := none, latest := none },
        destination := { earliest := none, latest := none },
        message := "" },
    warnings := [],
    errors := [] }

/-- Two-digit zero padding for `toFixed2`. -/
def pad2 (n : Nat) : String :=
  if n < 10 then "0" ++ toString n else toString n

/-- Modeled JS builtin `x.toFixed(2)` for the nonnegative exact values
arising in the verifier messages. -/
def toFixed2 (q : ℚ) : String :=
  let c : Int := (q * 100).floor
  toString (c / 100) ++ "." ++ pad2 ((c % 100).toNat)

/-- The mismatch message template of `verifyRecordCount`. -/
def recordCountMessage (s d diff : Nat) (pd : ℚ) : String :=
  "Record count mismatch: Source=" ++ toString s ++ ", Destination=" ++
    toString d ++ ", Difference=" ++ toString diff ++ " (" ++
    toFixed2 pd ++ "%)"

/-- `Verifier.verifyRecordCount` (verifier.js lines 63-106) given the
two fetched counts: record both counts and their absolute difference;
compute the percent difference only when the source count is positive
(otherwise the field keeps its previous value); pass iff the percent
difference is at most the 0.1 tolerance; on failure append the mismatch
message to `warnings` when the difference is below 1 percent and to
`errors` otherwise. -/
def verifyRecordCount (sourceCount destCount : Nat)
    (r : VerificationResult) : VerificationResult :=
  let difference := max sourceCount destCount - min sourceCount destCount
  let pd : ℚ :=
    if 0 < sourceCount then
      (difference : ℚ) / (sourceCount : ℚ) * 100
    else r.recordCount.percentDifference
  let passed : Bool := decide (pd ≤ 1 / 10)
  let rc : RecordCountCheck :=
    { passed := passed, source := sourceCount, destination := destCount,
      difference := difference, percentDifference := pd }
  if passed then { r with recordCount := rc }
  else
    let msg := recordCountMessage sourceCount destCount difference pd
    if pd < 1 then
      { r with recordCount := rc, warnings := r.warnings ++ [msg] }
    else
      { r with recordCount := rc, errors := r.errors ++ [msg] }

/-- `Verifier.verifyTimeRange` (verifier.js lines 107-179) given the
two fetched ranges: an empty destination endpoint fails the check with
a hard error; an empty source endpoint (destination non-empty) passes
with a warning; otherwise both endpoints are compared with a
1000-millisecond tolerance, and a mismatch beyond tolerance fails the
check while appending only a warning naming the diverging
endpoint(s). -/
def verifyTimeRange (sr dr : TimeRangeEndpoints)
    (r : VerificationResult) : VerificationResult :=
  let base :=
    { r with timeRange :=
        { r.timeRange with source := sr, destination := dr } }
  match dr.earliest, dr.latest with
  | some de, some dl =>
    match sr.earliest, sr.latest with
    | some se, some sl =>
      let eDiff := (se - de).natAbs
      let lDiff := (sl - dl).natAbs
      let eMatch : Bool := decide (eDiff ≤ 1000)
      let lMatch : Bool := decide (lDiff ≤ 1000)
      if eMatch && lMatch then
        { base with timeRange :=
            { base.timeRange with
              passed := true,
              message := "Time ranges match" } }
      else
        let msgs :=
          (if eMatch then []
           else ["Earliest timestamp mismatch (diff: " ++
             toString eDiff ++ "ms)"]) ++
          (if lMatch then []
           else ["Latest timestamp mismatch (diff: " ++
             toString lDiff ++ "ms)"])
        let m := String.intercalate "; " msgs
        { base with
          timeRange :=
            { base.timeRange with passed := false, message := m }
          warnings :=
            base.warnings ++ ["Time range differences detected: " ++ m] }
    | _, _ =>
      { base with
        timeRange :=
          { base.timeRange with
            passed := true,
            message := "Source is empty, destination matches" },
        warnings := base.warnings ++ ["Source database appears to be empty"] }
  | _, _ =>
    { base with
      timeRange :=
        { base.timeRange with
          passed := false,
          message := "Destination time range is empty" },
      errors := base.errors ++
        ["Destination database appears to be empty or time range query failed"] }

/-- `Verifier.verify` (verifier.js lines 13-62) with the four fetched
inputs: run the record-count check, then the time-range check, then set
the overall `passed` to the conjunction of both checks' `passed` flags
and the emptiness of the error list. -/
def verify (sourceCount destCount : Nat) (sr dr : TimeRangeEndpoints) :
    VerificationResult :=
  let r1 := verifyRecordCount sourceCount destCount initResult
  let r2 := verifyTimeRange sr dr r1
  { r2 with
    passed := r2.recordCount.passed && r2.timeRange.passed &&
      r2.errors.isEmpty }

/-! ## Concrete fixtures used by witnesses and counterexamples -/

/-- A well-formed record: measurement `m`, field `f`, non-numeric string
value `abc`, no extra keys. -/
def recGood : SrcRecord :=
  { measurement := some "m", field := some "f",
    value := some (JsVal.vstr "abc"), time := 5, others := [] }

/-- A malformed record: empty measurement name. -/
def recNoMeasurement : SrcRecord :=
  { measurement := some "", field := some "f",
    value := some (JsVal.vstr "x"), time := 5, others := [] }

/-- A malformed record: empty-string field value. -/
def recEmptyField : SrcRecord :=
  { measurement := some "m", field := some "f",
    value := some (JsVal.vstr ""), time := 5, others := [] }

/-- A record whose measurement name contains all three special
characters and whose tag value and string field need escaping. -/
def recEscape : SrcRecord :=
  { measurement := some "m,x y=z", field := some "f",
    value := some (JsVal.vstr "a\"b"), time := 0,
    others := [("host", some (JsVal.vstr "a b,c=d"))] }

/-- A fresh progress record at the start of a run. -/
def progInit : MigrationProgress :=
  { migrationId := "mid", totalRecords := 0, migratedRecords := 0,
    currentBatch := 0, lastTimestamp := none,
    status := MigStatus.running, error := none }

/-- A transport where every whole-batch request succeeds. -/
def allBatchesOk : Nat → Bool := fun _ => true

/-- A destination that accepts every individual line. -/
def allLinesOk : String → Bool := fun _ => true

/-- A concrete checkpoint record. -/
def ckFix : CheckpointData :=
  { migrationId := "id1", lastTimestamp := some 42, migratedRecords := 7,
    totalRecords := 10, currentBatch := 2, startTime := 100,
    lastUpdateTime := 200,
    sourceConfig := { host := "sh", org := "orgA", bucket := "b" },
    destConfig := { host := "dh", database := "db" },
    metadata := none }

/-- A store holding exactly the well-formed checkpoint `ckFix`. -/
def storeFix : FileStore :=
  [(checkpointPath "cps" "id1", FileContent.json ckFix)]

/-- A current source configuration that differs from `ckFix` only in the
organization. -/
def srcOrgDiff : SourceConfig := { host := "sh", org := "orgB", bucket := "b" }

/-- The destination configuration matching `ckFix`. -/
def dstFix : DestConfig := { host := "dh", database := "db" }

/-- The percent difference the verifier computes for a positive source
count. -/
def percentDiff (s d : Nat) : ℚ :=
  ((max s d - min s d : Nat) : ℚ) / (s : ℚ) * 100

/-! ## Helper lemmas -/

/-- Every record either serializes to a line or is counted as skipped. -/
theorem serializeBatch_count (rs : List SrcRecord) :
    (serializeBatch rs).1.length + (serializeBatch rs).2 = rs.length := by
  induction rs with
  | nil => rfl
  | cons r rest ih =>
    simp only [serializeBatch]
    cases h : serializeRecord r <;> simp [h] <;> omega

/-- A batch in which every record is skipped serializes to no lines and
a skip count equal to the batch length. -/
theorem serializeBatch_all_none (rs : List SrcRecord)
    (h : ∀ r ∈ rs, serializeRecord r = none) :
    serializeBatch rs = ([], rs.length) := by
  induction rs with
  | nil => rfl
  | cons r rest ih =>
    have hr := h r (List.mem_cons_self r rest)
    have hrest : ∀ x ∈ rest, serializeRecord x = none :=
      fun x hx => h x (List.mem_cons_of_mem r hx)
    simp [serializeBatch, hr, ih hrest]

/-- The accepted count of a returning `writeBatch` call never exceeds
the number of points in the batch. -/
theorem writeBatch_accepted_le (batchOk : Bool) (lineOk : String → Bool)
    (records : List SrcRecord) (a k : Nat)
    (hw : writeBatch batchOk lineOk records = WriteResult.ok a k) :
    a ≤ records.length := by
  have hc := serializeBatch_count records
  have hf : ((serializeBatch records).1.filter lineOk).length ≤
      (serializeBatch records).1.length := List.length_filter_le _ _
  simp only [writeBatch] at hw
  split at hw
  · injection hw with h1 h2
    omega
  · split at hw
    · injection hw with h1 h2
      omega
    · split at hw
      · exact absurd hw (by simp)
      · injection hw with h1 h2
        omega

/-- One non-empty batch whose `writeBatch` call returns advances the
loop to the rest of the batches with the progress stepped. -/
theorem migrateLoop_cons_ok (batchOk : Nat → Bool) (lineOk : String → Bool)
    (b : List SrcRecord) (rest : List (List SrcRecord))
    (p : MigrationProgress) (bn a k : Nat) (hb : b ≠ [])
    (hw : writeBatch (batchOk (bn + 1)) lineOk b = WriteResult.ok a k) :
    migrateLoop batchOk lineOk (b :: rest) p bn =
      migrateLoop batchOk lineOk rest (stepProgress p b bn) (bn + 1) := by
  have hbe : b.isEmpty = false := by
    cases b with
    | nil => exact absurd rfl hb
    | cons x xs => rfl
  simp [migrateLoop, hbe, hw]

/-! ## Claim C1 -/

/-- Claim C1, counterexample to the claim as stated: for the concrete
batch `[recGood, recNoMeasurement]` the writer accepts only one point
(`WriteResult.ok 1 1`), yet the orchestrator increases
`migratedRecords` by 2, the number of points sent — not by the accepted
count 1. -/
theorem migrate_counts_sent_not_accepted_cex :
    writeBatch true allLinesOk [recGood, recNoMeasurement] =
      WriteResult.ok 1 1 ∧
    (migrate allBatchesOk allLinesOk [[recGood, recNoMeasurement]]
      progInit).migratedRecords = 2 ∧
    (2 : Nat) ≠ 1 := by
  decide

/-- Claim C1 (amended): for every non-empty batch whose `writeBatch`
call returns, the Orchestrator increases `migratedRecords` by the full
batch length — the number of points sent, including points the writer
skipped — while the internally accepted count is merely bounded by that
length; `writeBatch` returns `void` and no accepted count reaches the
caller. -/
theorem migrate_increments_by_batch_length (batchOk : Nat → Bool)
    (lineOk : String → Bool) (b : List SrcRecord)
    (rest : List (List SrcRecord)) (p : MigrationProgress) (bn a k : Nat)
    (hb : b ≠ [])
    (hw : writeBatch (batchOk (bn + 1)) lineOk b = WriteResult.ok a k) :
    migrateLoop batchOk lineOk (b :: rest) p bn =
      migrateLoop batchOk lineOk rest (stepProgress p b bn) (bn + 1) ∧
    (stepProgress p b bn).migratedRecords = p.migratedRecords + b.length ∧
    a ≤ b.length :=
  ⟨migrateLoop_cons_ok batchOk lineOk b rest p bn a k hb hw, rfl,
    writeBatch_accepted_le (batchOk (bn + 1)) lineOk b a k hw⟩

/-- Witness for `migrate_increments_by_batch_length` at the concrete
mixed batch. -/
theorem migrate_increments_by_batch_length_witness :
    migrateLoop allBatchesOk allLinesOk [[recGood, recNoMeasurement]]
        progInit 0 =
      migrateLoop allBatchesOk allLinesOk []
        (stepProgress progInit [recGood, recNoMeasurement] 0) 1 ∧
    (stepProgress progInit [recGood, recNoMeasurement] 0).migratedRecords =
      progInit.migratedRecords + [recGood, recNoMeasurement].length ∧
    1 ≤ [recGood, recNoMeasurement].length :=
  migrate_increments_by_batch_length allBatchesOk allLinesOk
    [recGood, recNoMeasurement] [] progInit 0 1 1 (by decide) (by decide)

/-! ## Claim C2 -/

/-- Claim C2, counterexample to the claim as stated: a non-empty batch
consisting of one empty-field record serializes nothing; `writeBatch`
returns normally with zero accepted points, and the migration run ends
with status `completed`, not `failed`. -/
theorem all_malformed_batch_not_fatal_cex :
    writeBatch true allLinesOk [recEmptyField] = WriteResult.ok 0 1 ∧
    (migrate allBatchesOk allLinesOk [[recEmptyField]] progInit).status =
      MigStatus.completed ∧
    MigStatus.completed ≠ MigStatus.failed := by
  decide

/-- Claim C2 (amended): for every non-empty batch in which every point
is malformed, `writeBatch` serializes zero lines and returns normally
with zero accepted points (and every point counted as skipped); the
Orchestrator does not treat this as fatal — the loop continues to the
next batch and a run consisting only of such a batch completes with
status `completed`. -/
theorem all_malformed_batch_skipped_continues (batchOk : Nat → Bool)
    (lineOk : String → Bool) (b : List SrcRecord)
    (rest : List (List SrcRecord)) (p : MigrationProgress) (bn : Nat)
    (hb : b ≠ []) (hall : ∀ r ∈ b, serializeRecord r = none) :
    writeBatch (batchOk (bn + 1)) lineOk b = WriteResult.ok 0 b.length ∧
    migrateLoop batchOk lineOk (b :: rest) p bn =
      migrateLoop batchOk lineOk rest (stepProgress p b bn) (bn + 1) ∧
    (migrateLoop batchOk lineOk [b] p bn).status = MigStatus.completed := by
  have hw : writeBatch (batchOk (bn + 1)) lineOk b =
      WriteResult.ok 0 b.length := by
    simp [writeBatch, serializeBatch_all_none b hall]
  refine ⟨hw, migrateLoop_cons_ok batchOk lineOk b rest p bn 0 b.length hb hw, ?_⟩
  rw [migrateLoop_cons_ok batchOk lineOk b [] p bn 0 b.length hb hw]
  rfl

/-- Witness for `all_malformed_batch_skipped_continues` at the concrete
all-malformed batch. -/
theorem all_malformed_batch_skipped_continues_witness :
    writeBatch (allBatchesOk 1) allLinesOk [recEmptyField] =
      WriteResult.ok 0 [recEmptyField].length ∧
    migrateLoop allBatchesOk allLinesOk [[recEmptyField]] progInit 0 =
      migrateLoop allBatchesOk allLinesOk []
        (stepProgress progInit [recEmptyField] 0) 1 ∧
    (migrateLoop allBatchesOk allLinesOk [[recEmptyField]] progInit 0).status =
      MigStatus.completed :=
  all_malformed_batch_skipped_continues allBatchesOk allLinesOk
    [recEmptyField] [] progInit 0 (by decide) (by decide)

/-! ## Verifier helper lemmas -/


/-- The time-range check never touches the record-count block. -/
theorem verifyTimeRange_recordCount (sr dr : TimeRangeEndpoints)
    (r : VerificationResult) :
    (verifyTimeRange sr dr r).recordCount = r.recordCount := by
  unfold verifyTimeRange
  rcases dr with ⟨de, dl⟩
  rcases sr with ⟨se, sl⟩
  cases de <;> cases dl <;> cases se <;> cases sl <;>
    first
      | rfl
      | (dsimp only; split <;> rfl)

/-- The time-range check only appends to the warnings list. -/
theorem verifyTimeRange_warnings_mem (sr dr : TimeRangeEndpoints)
    (r : VerificationResult) (m : String) (h : m ∈ r.warnings) :
    m ∈ (verifyTimeRange sr dr r).warnings := by
  unfold verifyTimeRange
  rcases dr with ⟨de, dl⟩
  rcases sr with ⟨se, sl⟩
  cases de <;> cases dl <;> cases se <;> cases sl <;>
    first
      | exact h
      | (dsimp only; exact List.mem_append_left _ h)
      | (dsimp only; split
         · exact h
         · exact List.mem_append_left _ h)

/-- The time-range check only appends to the errors list. -/
theorem verifyTimeRange_errors_mem (sr dr : TimeRangeEndpoints)
    (r : VerificationResult) (m : String) (h : m ∈ r.errors) :
    m ∈ (verifyTimeRange sr dr r).errors := by
  unfold verifyTimeRange
  rcases dr with ⟨de, dl⟩
  rcases sr with ⟨se, sl⟩
  cases de <;> cases dl <;> cases se <;> cases sl <;>
    first
      | exact h
      | (dsimp only; exact List.mem_append_left _ h)
      | (dsimp only; split
         · exact h
         · exact h)

/-- Characterization of the record-count check for a positive source
count: the stored block, and which list the mismatch message lands
in. -/
theorem verifyRecordCount_spec (s d : Nat) (r : VerificationResult)
    (hs : 0 < s) :
    (verifyRecordCount s d r).recordCount =
      { passed := decide (percentDiff s d ≤ 1 / 10), source := s,
        destination := d, difference := max s d - min s d,
        percentDifference := percentDiff s d } ∧
    (verifyRecordCount s d r).warnings =
      (if percentDiff s d ≤ 1 / 10 then r.warnings
       else if percentDiff s d < 1 then
         r.warnings ++
           [recordCountMessage s d (max s d - min s d) (percentDiff s d)]
       else r.warnings) ∧
    (verifyRecordCount s d r).errors =
      (if percentDiff s d ≤ 1 / 10 then r.errors
       else if percentDiff s d < 1 then r.errors
       else r.errors ++
         [recordCountMessage s d (max s d - min s d) (percentDiff s d)]) := by
  have hs' : (0 < s) = True := eq_true hs
  simp only [verifyRecordCount, percentDiff, decide_eq_true_eq, hs', if_true]
  split_ifs <;> exact ⟨rfl, rfl, rfl⟩

/-- Record-count check with a zero source count: the percent difference
keeps its initial value 0 and the check passes. -/
theorem verify_zero_source (d : Nat) (sr dr : TimeRangeEndpoints) :
    (verify 0 d sr dr).recordCount.percentDifference = 0 ∧
    (verify 0 d sr dr).recordCount.passed = true := by
  have h : (verify 0 d sr dr).recordCount =
      (verifyRecordCount 0 d initResult).recordCount :=
    verifyTimeRange_recordCount sr dr (verifyRecordCount 0 d initResult)
  have hpassed : (decide ((0 : ℚ) ≤ 1 / 10)) = true := by
    rw [decide_eq_true_eq]
    norm_num
  have hrc : (verifyRecordCount 0 d initResult).recordCount =
      { passed := decide ((0 : ℚ) ≤ 1 / 10), source := 0, destination := d,
        difference := max 0 d - min 0 d, percentDifference := 0 } := by
    simp only [verifyRecordCount, initResult, lt_self_iff_false, if_false]
    split_ifs
    rfl
  rw [h, hrc, hpassed]
  exact ⟨rfl, rfl⟩

/-! ## Claim C3 -/

/-- Claim C3, counterexample to the claim as stated: with a zero source
count and destination count 5 the computed percent difference stays 0
(not 100) and the record-count check passes rather than fails. -/
theorem zero_source_nonzero_dest_passes_cex :
    (verify 0 5 { earliest := none, latest := none }
        { earliest := none, latest := none }).recordCount.percentDifference = 0 ∧
    (verify 0 5 { earliest := none, latest := none }
        { earliest := none, latest := none }).recordCount.passed = true ∧
    ((0 : ℚ) ≠ 100) := by
  obtain ⟨h1, h2⟩ := verify_zero_source 5 { earliest := none, latest := none }
    { earliest := none, latest := none }
  exact ⟨h1, h2, by norm_num⟩

/-- Claim C3 (amended): for every verification run where the source
record count is zero, the percent difference keeps its initial value of
zero and the record-count check passes — whatever the destination
count, zero or not. -/
theorem zero_source_percent_zero_passes (d : Nat)
    (sr dr : TimeRangeEndpoints) :
    (verify 0 d sr dr).recordCount.percentDifference = 0 ∧
    (verify 0 d sr dr).recordCount.passed = true :=
  verify_zero_source d sr dr

/-! ## Claim C6 -/

/-- The time-range check on two non-empty ranges with an
out-of-tolerance endpoint: the check fails, the message goes to the
warnings list, and the errors list is untouched. -/
theorem verifyTimeRange_mismatch (sr dr : TimeRangeEndpoints)
    (r : VerificationResult) (se sl de dl : Int)
    (hse : sr.earliest = some se) (hsl : sr.latest = some sl)
    (hde : dr.earliest = some de) (hdl : dr.latest = some dl)
    (hcond : (decide ((se - de).natAbs ≤ 1000) &&
      decide ((sl - dl).natAbs ≤ 1000)) = false) :
    (verifyTimeRange sr dr r).timeRange.passed = false ∧
    (∃ m, (verifyTimeRange sr dr r).warnings =
      r.warnings ++ ["Time range differences detected: " ++ m]) ∧
    (verifyTimeRange sr dr r).errors = r.errors := by
  unfold verifyTimeRange
  rw [hse, hsl, hde, hdl]
  dsimp only
  rw [if_neg (by simp [hcond])]
  exact ⟨rfl, ⟨_, rfl⟩, rfl⟩

/-- Claim C6, counterexample to the claim as stated: equal record
counts, non-empty ranges on both sides, and a 5-second divergence of
the earliest endpoints.  The discrepancy lands in the warnings list and
the error list stays empty, yet the overall verification does not pass,
because the time-range check itself is marked failed. -/
theorem time_range_warning_fails_overall_cex :
    (verify 100 100 { earliest := some 0, latest := some 10000000 }
        { earliest := some 5000, latest := some 10000000 }).recordCount.passed
      = true ∧
    (verify 100 100 { earliest := some 0, latest := some 10000000 }
        { earliest := some 5000, latest := some 10000000 }).errors = [] ∧
    (verify 100 100 { earliest := some 0, latest := some 10000000 }
        { earliest := some 5000, latest := some 10000000 }).warnings ≠ [] ∧
    (verify 100 100 { earliest := some 0, latest := some 10000000 }
        { earliest := some 5000, latest := some 10000000 }).passed = false := by
  have hpd : percentDiff 100 100 = 0 := by
    norm_num [percentDiff]
  obtain ⟨hrc, hw, he⟩ := verifyRecordCount_spec 100 100 initResult (by decide)
  have hple : percentDiff 100 100 ≤ 1 / 10 := by
    rw [hpd]
    norm_num
  have hcond : (decide (((0 : Int) - 5000).natAbs ≤ 1000) &&
      decide (((10000000 : Int) - 10000000).natAbs ≤ 1000)) = false := by
    decide
  obtain ⟨h1, h2, h3⟩ := verifyTimeRange_mismatch
    { earliest := some 0, latest := some 10000000 }
    { earliest := some 5000, latest := some 10000000 }
    (verifyRecordCount 100 100 initResult) 0 10000000 5000 10000000
    rfl rfl rfl rfl hcond
  have hrcpass : (verifyRecordCount 100 100 initResult).recordCount.passed =
      true := by
    rw [hrc]
    simp only [decide_eq_true_eq]
    exact hple
  have herr : (verifyRecordCount 100 100 initResult).errors = [] := by
    rw [he, if_pos hple]
    rfl
  refine ⟨?_, ?_, ?_, ?_⟩
  · have : (verify 100 100 { earliest := some 0, latest := some 10000000 }
        { earliest := some 5000, latest := some 10000000 }).recordCount =
        (verifyRecordCount 100 100 initResult).recordCount :=
      verifyTimeRange_recordCount _ _ _
    rw [this, hrcpass]
  · rw [show (verify 100 100 { earliest := some 0, latest := some 10000000 }
        { earliest := some 5000, latest := some 10000000 }).errors =
        (verifyTimeRange { earliest := some 0, latest := some 10000000 }
          { earliest := some 5000, latest := some 10000000 }
          (verifyRecordCount 100 100 initResult)).errors from rfl, h3, herr]
  · obtain ⟨m, hm⟩ := h2
    rw [show (verify 100 100 { earliest := some 0, latest := some 10000000 }
        { earliest := some 5000, latest := some 10000000 }).warnings =
        (verifyTimeRange { earliest := some 0, latest := some 10000000 }
          { earliest := some 5000, latest := some 10000000 }
          (verifyRecordCount 100 100 initResult)).warnings from rfl, hm]
    simp
  · rw [show (verify 100 100 { earliest := some 0, latest := some 10000000 }
        { earliest := some 5000, latest := some 10000000 }).passed =
        ((verifyTimeRange { earliest := some 0, latest := some 10000000 }
            { earliest := some 5000, latest := some 10000000 }
            (verifyRecordCount 100 100 initResult)).recordCount.passed &&
          (verifyTimeRange { earliest := some 0, latest := some 10000000 }
            { earliest := some 5000, latest := some 10000000 }
            (verifyRecordCount 100 100 initResult)).timeRange.passed &&
          (verifyTimeRange { earliest := some 0, latest := some 10000000 }
            { earliest := some 5000, latest := some 10000000 }
            (verifyRecordCount 100 100 initResult)).errors.isEmpty) from rfl,
      h1]
    simp

/-- Claim C6 (amended): for every verification run where both stores
report non-empty time ranges and at least one endpoint differs by more
than the 1-second tolerance, the discrepancy is appended to the
warnings list — not the errors list — but the time-range check itself
is marked failed, so the overall verification does not pass even when
the record-count check passed and no errors were recorded. -/
theorem time_range_mismatch_warning_but_fails (s d : Nat)
    (sr dr : TimeRangeEndpoints) (se sl de dl : Int)
    (hse : sr.earliest = some se) (hsl : sr.latest = some sl)
    (hde : dr.earliest = some de) (hdl : dr.latest = some dl)
    (hdiff : 1000 < (se - de).natAbs ∨ 1000 < (sl - dl).natAbs) :
    (verify s d sr dr).timeRange.passed = false ∧
    (∃ m, (verify s d sr dr).warnings =
      (verifyRecordCount s d initResult).warnings ++
        ["Time range differences detected: " ++ m]) ∧
    (verify s d sr dr).errors = (verifyRecordCount s d initResult).errors ∧
    (verify s d sr dr).passed = false := by
  have hcond : (decide ((se - de).natAbs ≤ 1000) &&
      decide ((sl - dl).natAbs ≤ 1000)) = false := by
    rcases hdiff with h | h
    · have hd : decide ((se - de).natAbs ≤ 1000) = false := by
        simp [decide_eq_false_iff_not]
        omega
      simp [hd]
    · have hd : decide ((sl - dl).natAbs ≤ 1000) = false := by
        simp [decide_eq_false_iff_not]
        omega
      simp [hd]
  obtain ⟨h1, h2, h3⟩ := verifyTimeRange_mismatch sr dr
    (verifyRecordCount s d initResult) se sl de dl hse hsl hde hdl hcond
  refine ⟨h1, h2, h3, ?_⟩
  show (_ && (verifyTimeRange sr dr
      (verifyRecordCount s d initResult)).timeRange.passed && _) = false
  rw [h1]
  simp

/-- Witness for `time_range_mismatch_warning_but_fails` at a concrete
5-second earliest-endpoint divergence. -/
theorem time_range_mismatch_warning_but_fails_witness :
    (verify 100 100 { earliest := some 0, latest := some 10000000 }
        { earliest := some 5000, latest := some 10000000 }).timeRange.passed
      = false ∧
    (∃ m, (verify 100 100 { earliest := some 0, latest := some 10000000 }
        { earliest := some 5000, latest := some 10000000 }).warnings =
      (verifyRecordCount 100 100 initResult).warnings ++
        ["Time range differences detected: " ++ m]) ∧
    (verify 100 100 { earliest := some 0, latest := some 10000000 }
        { earliest := some 5000, latest := some 10000000 }).errors =
      (verifyRecordCount 100 100 initResult).errors ∧
    (verify 100 100 { earliest := some 0, latest := some 10000000 }
        { earliest := some 5000, latest := some 10000000 }).passed = false :=
  time_range_mismatch_warning_but_fails 100 100
    { earliest := some 0, latest := some 10000000 }
    { earliest := some 5000, latest := some 10000000 }
    0 10000000 5000 10000000 rfl rfl rfl rfl (Or.inl (by decide))

/-! ## Claim C7 -/

/-- Claim C7 (confirmed): for every verification run with a positive
source count, the stored percent difference is `|s − d| / s × 100` and
the record-count check passes iff it is at most 0.1; a failing
difference strictly below 1 lands in the warnings list, a difference of
1 or more lands in the errors list, and in particular source 100000
versus destination 99000 gives exactly 1 percent and a hard error. -/
theorem record_count_thresholds (s d : Nat) (sr dr : TimeRangeEndpoints)
    (hs : 0 < s) :
    (verify s d sr dr).recordCount.percentDifference = percentDiff s d ∧
    ((verify s d sr dr).recordCount.passed = true ↔
      percentDiff s d ≤ 1 / 10) ∧
    (¬ percentDiff s d ≤ 1 / 10 → percentDiff s d < 1 →
      recordCountMessage s d (max s d - min s d) (percentDiff s d) ∈
        (verify s d sr dr).warnings) ∧
    (1 ≤ percentDiff s d →
      recordCountMessage s d (max s d - min s d) (percentDiff s d) ∈
        (verify s d sr dr).errors) ∧
    percentDiff 100000 99000 = 1 ∧
    recordCountMessage 100000 99000 1000 1 ∈
      (verify 100000 99000 sr dr).errors := by
  obtain ⟨hrc, hw, he⟩ := verifyRecordCount_spec s d initResult hs
  have hrcv : (verify s d sr dr).recordCount =
      (verifyRecordCount s d initResult).recordCount :=
    verifyTimeRange_recordCount sr dr (verifyRecordCount s d initResult)
  refine ⟨?_, ?_, ?_, ?_, ?_, ?_⟩
  · rw [hrcv, hrc]
  · rw [hrcv, hrc]
    simp
  · intro hp h1
    have hmem : recordCountMessage s d (max s d - min s d)
        (percentDiff s d) ∈ (verifyRecordCount s d initResult).warnings := by
      rw [hw, if_neg hp, if_pos h1]
      exact List.mem_append_right _ (List.mem_singleton.mpr rfl)
    exact verifyTimeRange_warnings_mem sr dr _ _ hmem
  · intro hge
    have hp : ¬ percentDiff s d ≤ 1 / 10 := by
      intro hle
      have : (1 : ℚ) ≤ 1 / 10 := le_trans hge hle
      norm_num at this
    have h1 : ¬ percentDiff s d < 1 := not_lt.mpr hge
    have hmem : recordCountMessage s d (max s d - min s d)
        (percentDiff s d) ∈ (verifyRecordCount s d initResult).errors := by
      rw [he, if_neg hp, if_neg h1]
      exact List.mem_append_right _ (List.mem_singleton.mpr rfl)
    exact verifyTimeRange_errors_mem sr dr _ _ hmem
  · norm_num [percentDiff]
  · have hpd1 : percentDiff 100000 99000 = 1 := by
      norm_num [percentDiff]
    obtain ⟨hrc', hw', he'⟩ :=
      verifyRecordCount_spec 100000 99000 initResult (by decide)
    have hp' : ¬ percentDiff 100000 99000 ≤ 1 / 10 := by
      rw [hpd1]
      norm_num
    have h1' : ¬ percentDiff 100000 99000 < 1 := by
      rw [hpd1]
      norm_num
    have hdiff1000 : max 100000 99000 - min 100000 99000 = 1000 := by
      decide
    have hmem : recordCountMessage 100000 99000 1000 1 ∈
        (verifyRecordCount 100000 99000 initResult).errors := by
      rw [he', if_neg hp', if_neg h1', hdiff1000, hpd1]
      exact List.mem_append_right _ (List.mem_singleton.mpr rfl)
    exact verifyTimeRange_errors_mem sr dr _ _ hmem

/-- Witness for `record_count_thresholds` at source 100000 and
destination 99000. -/
theorem record_count_thresholds_witness :
    (verify 100000 99000 { earliest := none, latest := none }
        { earliest := none, latest := none }).recordCount.percentDifference =
      percentDiff 100000 99000 ∧
    ((verify 100000 99000 { earliest := none, latest := none }
        { earliest := none, latest := none }).recordCount.passed = true ↔
      percentDiff 100000 99000 ≤ 1 / 10) ∧
    (¬ percentDiff 100000 99000 ≤ 1 / 10 → percentDiff 100000 99000 < 1 →
      recordCountMessage 100000 99000 (max 100000 99000 - min 100000 99000)
          (percentDiff 100000 99000) ∈
        (verify 100000 99000 { earliest := none, latest := none }
          { earliest := none, latest := none }).warnings) ∧
    (1 ≤ percentDiff 100000 99000 →
      recordCountMessage 100000 99000 (max 100000 99000 - min 100000 99000)
          (percentDiff 100000 99000) ∈
        (verify 100000 99000 { earliest := none, latest := none }
          { earliest := none, latest := none }).errors) ∧
    percentDiff 100000 99000 = 1 ∧
    recordCountMessage 100000 99000 1000 1 ∈
      (verify 100000 99000 { earliest := none, latest := none }
        { earliest := none, latest := none }).errors :=
  record_count_thresholds 100000 99000 { earliest := none, latest := none }
    { earliest := none, latest := none } (by decide)

/-! ## Claim C4 -/

/-- The character-wise reading of the regex replace
`/[,= ]/g → '\\$&'`. -/
theorem escapeChars_eq_bind (special : List Char) (cs : List Char) :
    escapeChars special cs =
      cs.flatMap (fun c => if c ∈ special then ['\\', c] else [c]) := by
  induction cs with
  | nil => rfl
  | cons c rest ih =>
    simp only [escapeChars, List.flatMap_cons]
    split <;> simp [ih]

/-- The character-wise reading of the regex replace `/"/g → '\\"'`. -/
theorem escapeQuotes_eq_bind (cs : List Char) :
    escapeQuotes cs =
      cs.flatMap (fun c => if c = '"' then ['\\', c] else [c]) := by
  induction cs with
  | nil => rfl
  | cons c rest ih =>
    simp only [escapeQuotes, List.flatMap_cons]
    split <;> simp_all

/-- The tag accumulation loop collects exactly the surviving
`key=escapedValue` entries, in order. -/
theorem buildTags_eq_filterMap (others : List (String × Option JsVal)) :
    buildTags others = others.filterMap tagEntry := by
  have go : ∀ (l : List (String × Option JsVal)) (acc : List String),
      l.foldl
        (fun acc kv =>
          match tagEntry kv with
          | some e => acc ++ [e]
          | none => acc)
        acc = acc ++ l.filterMap tagEntry := by
    intro l
    induction l with
    | nil => simp
    | cons kv rest ih =>
      intro acc
      cases h : tagEntry kv <;>
        simp [List.foldl_cons, List.filterMap_cons, h, ih]
  simpa using go others []

/-- Claim C4, counterexample to the claim as stated: a measurement name
containing a comma, a space and an equals sign is interpolated into the
line verbatim, not backslash-escaped — while the tag value on the same
line is escaped. -/
theorem measurement_not_escaped_cex :
    serializeRecord recEscape =
      some "m,x y=z,host=a\\ b\\,c\\=d f=\"a\\\"b\" 0" ∧
    serializeRecord recEscape ≠
      some "m\\,x\\ y\\=z,host=a\\ b\\,c\\=d f=\"a\\\"b\" 0" := by
  decide

/-- Claim C4 (amended): in every line `writeBatch` emits, tag values
escape comma, equals sign, and space with a backslash prefix, string
field values are wrapped in double quotes with internal double quotes
backslash-escaped, and numeric and boolean field values are written
unquoted — but the measurement name is interpolated verbatim without
any escaping. -/
theorem line_protocol_escaping_amended (m f nr s : String) (b : Bool)
    (v v' : JsVal) (t : Int) (others : List (String × Option JsVal))
    (hm : m ≠ "") (hf : f ≠ "") (hv : coerceValue v = some v') :
    (escapeTagValue s).data =
      s.data.flatMap
        (fun c => if c ∈ [',', '=', ' '] then ['\\', c] else [c]) ∧
    escapeFieldValue (JsVal.vstr s) =
      "\"" ++
        String.mk (s.data.flatMap (fun c => if c = '"' then ['\\', c] else [c]))
        ++ "\"" ∧
    escapeFieldValue (JsVal.vnum nr) = nr ∧
    escapeFieldValue (JsVal.vbool b) = (if b then "true" else "false") ∧
    buildTags others = others.filterMap tagEntry ∧
    serializeRecord
        { measurement := some m, field := some f, value := some v,
          time := t, others := others } =
      some (m ++
        (if (others.filterMap tagEntry).isEmpty then ""
         else "," ++ String.intercalate "," (others.filterMap tagEntry)) ++
        " " ++ f ++ "=" ++ escapeFieldValue v' ++ " " ++
        toString (t * 1000000)) := by
  have hvne : v ≠ JsVal.vstr "" := by
    intro h
    rw [h] at hv
    have hnone : coerceValue (JsVal.vstr "") = none := rfl
    rw [hnone] at hv
    exact Option.noConfusion hv
  refine ⟨?_, ?_, rfl, rfl, buildTags_eq_filterMap others, ?_⟩
  · exact escapeChars_eq_bind [',', '=', ' '] s.data
  · show "\"" ++ String.mk (escapeQuotes s.data) ++ "\"" = _
    rw [escapeQuotes_eq_bind]
  · simp only [serializeRecord, if_neg hm, if_neg hf, if_neg hvne, hv,
      buildTags_eq_filterMap, String.append_assoc]

/-- Witness for `line_protocol_escaping_amended` at concrete inputs. -/
theorem line_protocol_escaping_amended_witness :
    (escapeTagValue "a,b=c d").data =
      "a,b=c d".data.flatMap
        (fun c => if c ∈ [',', '=', ' '] then ['\\', c] else [c]) ∧
    escapeFieldValue (JsVal.vstr "a,b=c d") =
      "\"" ++
        String.mk
          ("a,b=c d".data.flatMap (fun c => if c = '"' then ['\\', c] else [c]))
        ++ "\"" ∧
    escapeFieldValue (JsVal.vnum "42") = "42" ∧
    escapeFieldValue (JsVal.vbool true) = (if true then "true" else "false") ∧
    buildTags [("host", some (JsVal.vstr "x y"))] =
      [("host", some (JsVal.vstr "x y"))].filterMap tagEntry ∧
    serializeRecord
        { measurement := some "m", field := some "f",
          value := some (JsVal.vstr "abc"), time := 5,
          others := [("host", some (JsVal.vstr "x y"))] } =
      some ("m" ++
        (if ([("host", some (JsVal.vstr "x y"))].filterMap tagEntry).isEmpty
          then ""
         else "," ++ String.intercalate ","
           ([("host", some (JsVal.vstr "x y"))].filterMap tagEntry)) ++
        " " ++ "f" ++ "=" ++ escapeFieldValue (JsVal.vstr "abc") ++ " " ++
        toString ((5 : Int) * 1000000)) :=
  line_protocol_escaping_amended "m" "f" "42" "a,b=c d" true
    (JsVal.vstr "abc") (JsVal.vstr "abc") 5
    [("host", some (JsVal.vstr "x y"))]
    (by decide) (by decide) (by decide)

/-! ## Claim C5 -/

/-- Claim C5, counterexample to the claim as stated: a checkpoint whose
source organization differs from the caller's configuration — all other
identity fields equal — does not fail resume; validation passes and the
run proceeds from the checkpoint. -/
theorem resume_ignores_org_cex :
    loadCheckpoint storeFix "cps" "id1" = some ckFix ∧
    ckFix.sourceConfig.org ≠ srcOrgDiff.org ∧
    ckFix.sourceConfig.host = srcOrgDiff.host ∧
    ckFix.sourceConfig.bucket = srcOrgDiff.bucket ∧
    ckFix.destConfig = dstFix ∧
    resumeCheck storeFix "cps" "id1" srcOrgDiff dstFix =
      ResumeOutcome.proceed
        { migrationId := "id1", totalRecords := 10, migratedRecords := 7,
          currentBatch := 2, lastTimestamp := some 42,
          status := MigStatus.running, error := none }
        (some 42) := by
  decide

/-- Claim C5 (amended): for every resume invocation with a loadable
checkpoint, resume fails with the fatal configuration error — raised
before any read or write is attempted — iff the checkpoint differs from
the caller's current configuration in source host, source bucket,
destination host, or destination database; the source org is not
compared, and when the four compared fields match the run proceeds from
the restored progress. -/
theorem resume_mismatch_iff_four_fields (store : FileStore)
    (dir id : String) (src : SourceConfig) (dst : DestConfig)
    (cp : CheckpointData)
    (hload : loadCheckpoint store dir id = some cp) :
    ((resumeCheck store dir id src dst).isMismatch = true ↔
      (cp.sourceConfig.host ≠ src.host ∨ cp.sourceConfig.bucket ≠ src.bucket ∨
       cp.destConfig.host ≠ dst.host ∨ cp.destConfig.database ≠ dst.database)) ∧
    ((resumeCheck store dir id src dst).isMismatch = false →
      resumeCheck store dir id src dst =
        ResumeOutcome.proceed
          { migrationId := cp.migrationId, totalRecords := cp.totalRecords,
            migratedRecords := cp.migratedRecords,
            currentBatch := cp.currentBatch,
            lastTimestamp := cp.lastTimestamp,
            status := MigStatus.running, error := none }
          cp.lastTimestamp) := by
  have hred : resumeCheck store dir id src dst = resumeValidate cp src dst := by
    unfold resumeCheck
    rw [hload]
  rw [hred]
  unfold resumeValidate
  by_cases hcond : cp.sourceConfig.host ≠ src.host ∨
      cp.sourceConfig.bucket ≠ src.bucket ∨
      cp.destConfig.host ≠ dst.host ∨
      cp.destConfig.database ≠ dst.database
  · rw [if_pos hcond]
    refine ⟨by simp [ResumeOutcome.isMismatch, hcond], ?_⟩
    intro hfalse
    exact absurd hfalse (by simp [ResumeOutcome.isMismatch])
  · rw [if_neg hcond]
    refine ⟨by simp [ResumeOutcome.isMismatch, hcond], fun _ => rfl⟩

/-- Witness for `resume_mismatch_iff_four_fields` at the concrete
checkpoint store. -/
theorem resume_mismatch_iff_four_fields_witness :
    ((resumeCheck storeFix "cps" "id1" srcOrgDiff dstFix).isMismatch = true ↔
      (ckFix.sourceConfig.host ≠ srcOrgDiff.host ∨
       ckFix.sourceConfig.bucket ≠ srcOrgDiff.bucket ∨
       ckFix.destConfig.host ≠ dstFix.host ∨
       ckFix.destConfig.database ≠ dstFix.database)) ∧
    ((resumeCheck storeFix "cps" "id1" srcOrgDiff dstFix).isMismatch = false →
      resumeCheck storeFix "cps" "id1" srcOrgDiff dstFix =
        ResumeOutcome.proceed
          { migrationId := ckFix.migrationId,
            totalRecords := ckFix.totalRecords,
            migratedRecords := ckFix.migratedRecords,
            currentBatch := ckFix.currentBatch,
            lastTimestamp := ckFix.lastTimestamp,
            status := MigStatus.running, error := none }
          ckFix.lastTimestamp) :=
  resume_mismatch_iff_four_fields storeFix "cps" "id1" srcOrgDiff dstFix
    ckFix (by decide)

/-! ## Claim C8 -/

/-- Claim C8 (confirmed): saving a checkpoint and loading it back by
the same migration id reproduces every field exactly as persisted at
save time — the argument with its `lastUpdateTime` refreshed to the
save instant — and across repeated saves of the same record the
persisted `lastUpdateTime` advances with the clock. -/
theorem checkpoint_roundtrip_monotone (store : FileStore) (dir : String)
    (d : CheckpointData) (now1 now2 : Nat) (h : now1 ≤ now2) :
    loadCheckpoint (saveCheckpoint store dir d now1).1 dir d.migrationId =
      some { d with lastUpdateTime := now1 } ∧
    (saveCheckpoint store dir d now1).2 = { d with lastUpdateTime := now1 } ∧
    loadCheckpoint
        (saveCheckpoint (saveCheckpoint store dir d now1).1 dir d now2).1
        dir d.migrationId =
      some { d with lastUpdateTime := now2 } ∧
    (saveCheckpoint store dir d now1).2.lastUpdateTime ≤
      (saveCheckpoint (saveCheckpoint store dir d now1).1 dir d
        now2).2.lastUpdateTime := by
  refine ⟨?_, rfl, ?_, h⟩ <;>
    simp [loadCheckpoint, saveCheckpoint, List.lookup]

/-- Witness for `checkpoint_roundtrip_monotone` at the concrete
checkpoint. -/
theorem checkpoint_roundtrip_monotone_witness :
    loadCheckpoint (saveCheckpoint [] "cps" ckFix 100).1 "cps"
        ckFix.migrationId =
      some { ckFix with lastUpdateTime := 100 } ∧
    (saveCheckpoint [] "cps" ckFix 100).2 =
      { ckFix with lastUpdateTime := 100 } ∧
    loadCheckpoint
        (saveCheckpoint (saveCheckpoint [] "cps" ckFix 100).1 "cps" ckFix
          200).1 "cps" ckFix.migrationId =
      some { ckFix with lastUpdateTime := 200 } ∧
    (saveCheckpoint [] "cps" ckFix 100).2.lastUpdateTime ≤
      (saveCheckpoint (saveCheckpoint [] "cps" ckFix 100).1 "cps" ckFix
        200).2.lastUpdateTime :=
  checkpoint_roundtrip_monotone [] "cps" ckFix 100 200 (by decide)

/-! ## Claim C9 -/

/-- Claim C9 (confirmed): when the checkpoint file for a migration id
holds malformed JSON, or cannot be read, or does not exist at all,
`load` returns `none` — corruption is indistinguishable from absence at
the load interface, and no error escapes. -/
theorem load_corruption_as_absence (store : FileStore)
    (dir id raw : String)
    (h : List.lookup (checkpointPath dir id) store =
        some (FileContent.malformed raw) ∨
      List.lookup (checkpointPath dir id) store =
        some FileContent.unreadable ∨
      List.lookup (checkpointPath dir id) store = none) :
    loadCheckpoint store dir id = none := by
  unfold loadCheckpoint
  rcases h with h | h | h <;> rw [h]

/-- Witness for `load_corruption_as_absence` at a store holding one
malformed checkpoint file. -/
theorem load_corruption_as_absence_witness :
    loadCheckpoint [(checkpointPath "cps" "id1",
      FileContent.malformed "not json")] "cps" "id1" = none :=
  load_corruption_as_absence
    [(checkpointPath "cps" "id1", FileContent.malformed "not json")]
    "cps" "id1" "not json" (Or.inl (by decide))

/-! ## Claim C10 -/

/-- Claim C10 (confirmed): `save` mutates its argument — the returned
record is the caller's record with `lastUpdateTime` overwritten by the
current time, and every other field left unchanged. -/
theorem save_mutates_only_lastUpdateTime (store : FileStore)
    (dir : String) (d : CheckpointData) (now : Nat) :
    (saveCheckpoint store dir d now).2.lastUpdateTime = now ∧
    (saveCheckpoint store dir d now).2.migrationId = d.migrationId ∧
    (saveCheckpoint store dir d now).2.lastTimestamp = d.lastTimestamp ∧
    (saveCheckpoint store dir d now).2.migratedRecords = d.migratedRecords ∧
    (saveCheckpoint store dir d now).2.totalRecords = d.totalRecords ∧
    (saveCheckpoint store dir d now).2.currentBatch = d.currentBatch ∧
    (saveCheckpoint store dir d now).2.startTime = d.startTime ∧
    (saveCheckpoint store dir d now).2.sourceConfig = d.sourceConfig ∧
    (saveCheckpoint store dir d now).2.destConfig = d.destConfig ∧
    (saveCheckpoint store dir d now).2.metadata = d.metadata :=
  ⟨rfl, rfl, rfl, rfl, rfl, rfl, rfl, rfl, rfl, rfl⟩

end InfluxMigrator
